import Mathlib

/-!
Verification development for the nox-erp multi-currency ledger core.

The client-side computations (`calculateSuggestedRate`, the transfer-form
`to_amount` effect, `convertToUSD`, payment/account totals, the transfer
submit guard) are embedded directly from the React sources.  The server-side
settlement engine (`transfer`, `createPayment`, `computeLineProfit`) is not
part of the provided sources; those operations are modelled from the spec,
as marked on each definition.  Money amounts and rates are rationals.
-/

namespace NoxErp

/-- Currency code, e.g. TRY / USD / EUR / USDT. -/
abbrev Currency := String

/-- The base currency of the rate table (TRY in the source). -/
def baseCurrency : Currency := "TRY"

def TRY : Currency := "TRY"

def USD : Currency := "USD"

def EUR : Currency := "EUR"

/-- One TCMB rate entry: buying/selling versus the base currency
(data model of `currentRates[c]` in the client). -/
structure Rate where
  buying : ℚ
  selling : ℚ
deriving Repr, DecidableEq

/-- The client-side rate cache `currentRates`: currency code to rate entry. -/
abbrev CurrentRates := List (Currency × Rate)

/-- Embeds the JS expression `currentRates[c]?.buying || null`
(part_004 lines 349-350): a missing entry gives null, and a zero buying
rate is falsy in JS, so it also gives null. -/
def buyingOrNull (rates : CurrentRates) (c : Currency) : Option ℚ :=
  match rates.lookup c with
  | none => none
  | some r => if r.buying = 0 then none else some r.buying

/-- One leg of the cross rate: `c === 'TRY' ? 1 : (currentRates[c]?.buying || null)`
(part_004 lines 349-350). -/
def legToTRY (rates : CurrentRates) (c : Currency) : Option ℚ :=
  if c = baseCurrency then some 1 else buyingOrNull rates c

/-- Embeds `calculateSuggestedRate` (part_004 lines 337-358), abstracted over
the two account currencies (the source first resolves the two selected
accounts and returns null if either is missing; the currency comparison and
rate arithmetic are embedded verbatim).  The guard `if (fromToTRY && toToTRY)`
keeps JS truthiness: a zero leg is falsy. -/
def calculateSuggestedRate (rates : CurrentRates) (fromCur toCur : Currency) : Option ℚ :=
  if fromCur = toCur then some 1
  else
    match legToTRY rates fromCur, legToTRY rates toCur with
    | some a, some b => if a ≠ 0 ∧ b ≠ 0 then some (a / b) else none
    | some _, none => none
    | none, _ => none

/-- Embeds `convertToUSD` (part_001 lines 236-249).  `!amount` is true for a
zero amount; a missing rate silently becomes 1 via `|| 1` in the source. -/
def buyingOr1 (rates : CurrentRates) (c : Currency) : ℚ :=
  match buyingOrNull rates c with
  | none => 1
  | some r => r

def convertToUSD (rates : CurrentRates) (amount : ℚ) (currency : Currency) : ℚ :=
  if amount = 0 ∨ currency = USD then amount
  else
    if currency = baseCurrency then amount / buyingOr1 rates USD
    else amount * buyingOr1 rates currency / buyingOr1 rates USD

/-- Embeds the payment-form submit default `parseFloat(formData.exchange_rate) || 1`
(part_004 line 169): a blank or unparsable field (none) and a zero value both
fall back to 1. -/
def paymentExchangeRate (field : Option ℚ) : ℚ :=
  match field with
  | none => 1
  | some r => if r = 0 then 1 else r

/-- The eight payment type strings of the source. -/
inductive PaymentType
  | incoming
  | outgoing
  | intra_company_in
  | intra_company_out
  | inter_company_in
  | inter_company_out
  | currency_purchase
  | currency_sale
deriving Repr, DecidableEq

/-- `incomingTypes` (part_004 line 312). -/
def incomingTypes : List PaymentType :=
  [.incoming, .intra_company_in, .inter_company_in, .currency_purchase]

/-- `outgoingTypes` (part_004 line 313). -/
def outgoingTypes : List PaymentType :=
  [.outgoing, .intra_company_out, .inter_company_out, .currency_sale]

/-- A payment row as consumed by the list page totals. -/
structure PaymentRec where
  payment_type : PaymentType
  amount : ℚ
  currency : Currency
deriving Repr, DecidableEq

/-- `totalIncoming` (part_004 lines 315-317): filter by incoming types, then
`reduce((sum, p) => sum + parseFloat(p.amount), 0)`. -/
def totalIncoming (ps : List PaymentRec) : ℚ :=
  (ps.filter fun p => incomingTypes.contains p.payment_type).foldl
    (fun sum p => sum + p.amount) 0

/-- `totalOutgoing` (part_004 lines 319-321). -/
def totalOutgoing (ps : List PaymentRec) : ℚ :=
  (ps.filter fun p => outgoingTypes.contains p.payment_type).foldl
    (fun sum p => sum + p.amount) 0

/-- An account row as consumed by the accounts page. -/
structure AccountRec where
  currency : Currency
  balance : ℚ
deriving Repr, DecidableEq

/-- `totalBalance` (Accounts.jsx line 186):
`typeAccounts.reduce((sum, acc) => sum + parseFloat(acc.balance), 0)`. -/
def totalBalance (accs : List AccountRec) : ℚ :=
  accs.foldl (fun sum a => sum + a.balance) 0

/-- Replace a payment row's currency field, leaving type and amount alone
(used to state that the totals ignore currency). -/
def setPaymentCurrency (c : Currency) (p : PaymentRec) : PaymentRec :=
  ⟨p.payment_type, p.amount, c⟩

/-- Replace an account row's currency field, leaving the balance alone. -/
def setAccountCurrency (c : Currency) (a : AccountRec) : AccountRec :=
  ⟨c, a.balance⟩

/-- A persisted account: fixed currency and running balance (spec §3). -/
structure Account where
  currency : Currency
  balance : ℚ
deriving Repr, DecidableEq

/-- The persisted accounts table, keyed by account id. -/
abbrev AccountMap := Nat → Option Account

/-- Error taxonomy of spec §7. -/
inductive LedgerError
  | validationError
  | accountNotFound
  | invalidAmount
  | currencyMismatch
  | rateUnavailable
deriving Repr, DecidableEq

/-- The transfer request payload built by `handleTransferSubmit`
(part_004 lines 205-213): optional `to_amount` and `exchange_rate` are sent
as null when the form fields are blank. -/
structure TransferRequest where
  from_account_id : Nat
  to_account_id : Nat
  from_amount : ℚ
  to_amount : Option ℚ
  exchange_rate : Option ℚ
deriving Repr, DecidableEq

/-- A stored Transfer record (spec §3): realized amounts and realized rate. -/
structure Transfer where
  from_account_id : Nat
  to_account_id : Nat
  from_amount : ℚ
  to_amount : ℚ
  exchange_rate : ℚ
deriving Repr, DecidableEq

/-- Modelled from the spec: the rate resolution order of §4.3 for the
server-side TransferEngine, which is not among the provided sources:
(1) explicit exchange_rate if provided; (2) rate 1 if the two account
currencies are equal; (3) else the store's cross-rate (embedded here by the
source's only cross-rate computation, `calculateSuggestedRate`). -/
def resolveRate (rates : CurrentRates) (explicit : Option ℚ)
    (fromCur toCur : Currency) : Option ℚ :=
  match explicit with
  | some r => some r
  | none =>
    if fromCur = toCur then some 1
    else calculateSuggestedRate rates fromCur toCur

/-- Modelled from the spec: §4.3, "to_amount, if not supplied,
= from_amount × resolved rate; if supplied, it is trusted as-is". -/
def toAmountOf (req : TransferRequest) (rate : ℚ) : ℚ :=
  match req.to_amount with
  | some v => v
  | none => req.from_amount * rate

/-- Modelled from the spec: the server-side `transfer` operation of §4.3,
which is not among the provided sources.  Preconditions: distinct accounts
and positive from_amount (ValidationError, §7); both accounts must exist
(AccountNotFound, §4.2); the rate must resolve when currencies differ
(RateUnavailable).  Effect: atomically decrement from_account by from_amount
and increment to_account by to_amount. -/
def transfer (rates : CurrentRates) (accounts : AccountMap)
    (req : TransferRequest) : Except LedgerError (Transfer × AccountMap) :=
  if req.from_account_id = req.to_account_id then .error .validationError
  else if req.from_amount ≤ 0 then .error .validationError
  else
    match accounts req.from_account_id, accounts req.to_account_id with
    | some fromAcc, some toAcc =>
      match resolveRate rates req.exchange_rate fromAcc.currency toAcc.currency with
      | none => .error .rateUnavailable
      | some rate =>
        .ok (⟨req.from_account_id, req.to_account_id, req.from_amount,
              toAmountOf req rate, rate⟩,
          fun k =>
            if k = req.from_account_id then
              some ⟨fromAcc.currency, fromAcc.balance - req.from_amount⟩
            else if k = req.to_account_id then
              some ⟨toAcc.currency, toAcc.balance + toAmountOf req rate⟩
            else accounts k)
    | some _, none => .error .accountNotFound
    | none, _ => .error .accountNotFound

/-- The accounts table after a transfer attempt: unchanged when the engine
reports an error (spec §4.3: both legs succeed or both are rolled back). -/
def applyTransfer (rates : CurrentRates) (accounts : AccountMap)
    (req : TransferRequest) : AccountMap :=
  match transfer rates accounts req with
  | .ok (_, accounts') => accounts'
  | .error _ => accounts

/-- The transfer form state of the Payments page: `none` stands for a blank
(falsy) field. -/
structure TransferFormData where
  from_account_id : Option Nat
  to_account_id : Option Nat
  from_amount : ℚ
  to_amount : Option ℚ
  exchange_rate : Option ℚ
deriving Repr, DecidableEq

/-- Embeds the guards of `handleTransferSubmit` (part_004 lines 191-224):
a missing source or target account, or equal source and target, abort the
submit (no request is sent); otherwise the request payload is built. -/
def handleTransferSubmit (d : TransferFormData) : Option TransferRequest :=
  match d.from_account_id, d.to_account_id with
  | some f, some t =>
    if f = t then none
    else some ⟨f, t, d.from_amount, d.to_amount, d.exchange_rate⟩
  | some _, none => none
  | none, _ => none

/-- Embeds the `to_amount` effect of the Payments page (part_004 lines
374-392): when both accounts are selected and from_amount and exchange_rate
are filled, to_amount becomes from_amount × exchange_rate across differing
currencies and a copy of from_amount across equal currencies. -/
def effectToAmount (fromCur toCur : Currency) (from_amount rate : ℚ) : ℚ :=
  if fromCur ≠ toCur then from_amount * rate else from_amount

/-- A payment request as accepted by the server (spec §4.2 signature). -/
structure PaymentRequest where
  payment_type : PaymentType
  amount : ℚ
  currency : Currency
  account_id : Nat
deriving Repr, DecidableEq

/-- A stored Payment record (spec §3, the fields the claims need). -/
structure Payment where
  payment_type : PaymentType
  amount : ℚ
  currency : Currency
  account_id : Nat
deriving Repr, DecidableEq

/-- Modelled from the spec: the server-side `createPayment` of §4.2, which is
not among the provided sources.  Failure modes InvalidAmount (amount ≤ 0),
AccountNotFound, CurrencyMismatch; effect: adjust the referenced account's
balance by +amount for the incoming-class types and −amount for the
outgoing-class types (the two class lists are embedded from part_004
lines 312-313). -/
def createPayment (accounts : AccountMap) (req : PaymentRequest) :
    Except LedgerError (Payment × AccountMap) :=
  if req.amount ≤ 0 then .error .invalidAmount
  else
    match accounts req.account_id with
    | none => .error .accountNotFound
    | some acc =>
      if acc.currency ≠ req.currency then .error .currencyMismatch
      else
        .ok (⟨req.payment_type, req.amount, req.currency, req.account_id⟩,
          fun k =>
            if k = req.account_id then
              some ⟨acc.currency,
                acc.balance +
                  (if incomingTypes.contains req.payment_type then req.amount
                   else -req.amount)⟩
            else accounts k)

/-- Modelled from the spec: `computeLineProfit` of §4.4.  The provided
sources only compute the line total client-side (`calculateItemTotal`,
Transactions.jsx lines 253-255); cost, profit and margin of a line are
computed server-side, outside the provided sources. -/
structure LineProfit where
  line_total : ℚ
  line_cost : ℚ
  line_profit : ℚ
  margin_pct : ℚ
deriving Repr, DecidableEq

def computeLineProfit (quantity unit_price cost_price : ℚ) : LineProfit :=
  { line_total := quantity * unit_price
    line_cost := quantity * cost_price
    line_profit := quantity * unit_price - quantity * cost_price
    margin_pct :=
      if quantity * unit_price = 0 then 0
      else (quantity * unit_price - quantity * cost_price) / (quantity * unit_price) * 100 }

/-- Embeds `calculateItemTotal` (Transactions.jsx lines 253-255). -/
def calculateItemTotal (quantity unit_price : ℚ) : ℚ :=
  quantity * unit_price

/-- Concrete rate tables used by the concrete-scenario theorems. -/
def c3Rates : CurrentRates := [(USD, ⟨30, 31⟩)]

def c6Rates : CurrentRates := [(USD, ⟨30, 31⟩)]

def c8Rates : CurrentRates := [(USD, ⟨30, 31⟩), (EUR, ⟨15, 16⟩)]

theorem buyingOrNull_ne_zero {rates : CurrentRates} {c : Currency} {a : ℚ}
    (h : buyingOrNull rates c = some a) : a ≠ 0 := by
  unfold buyingOrNull at h
  split at h
  · cases h
  · split at h
    · cases h
    · cases h
      assumption

theorem legToTRY_ne_zero {rates : CurrentRates} {c : Currency} {a : ℚ}
    (h : legToTRY rates c = some a) : a ≠ 0 := by
  unfold legToTRY at h
  split at h
  · cases h
    exact one_ne_zero
  · exact buyingOrNull_ne_zero h

theorem calculateSuggestedRate_cross {rates : CurrentRates} {fromCur toCur : Currency}
    {r : ℚ} (hne : fromCur ≠ toCur)
    (h : calculateSuggestedRate rates fromCur toCur = some r) :
    ∃ x y, legToTRY rates fromCur = some x ∧ legToTRY rates toCur = some y ∧
      x ≠ 0 ∧ y ≠ 0 ∧ r = x / y := by
  unfold calculateSuggestedRate at h
  split at h
  · exact absurd (by assumption) hne
  · split at h
    · rename_i x y hA hB
      split at h
      · rename_i hxy
        cases h
        exact ⟨x, y, hA, hB, hxy.1, hxy.2, rfl⟩
      · cases h
    · cases h
    · cases h

/-- C3 counterexample: with a recorded USD buying rate of 30, the direct
buying rate is 30, yet the cross rate from the base currency TRY to USD is
1/30 — not the direct buying rate, which refutes the claim as stated for the
direction whose source currency is the base. -/
theorem c3_counterexample :
    buyingOrNull c3Rates USD = some 30 ∧
    calculateSuggestedRate c3Rates TRY USD = some (1 / 30) ∧
    (1 / 30 : ℚ) ≠ 30 := by
  refine ⟨?_, ?_, by norm_num⟩
  · simp [c3Rates, buyingOrNull, USD, List.lookup]
  · simp [c3Rates, calculateSuggestedRate, legToTRY, buyingOrNull, USD, TRY,
      baseCurrency, List.lookup]

/-- C3 (amended): the cross rate is rate(from→base)/rate(to→base) with the
base leg fixed at 1.  Into the base currency it is the source currency's
direct buying rate; out of the base currency it is the reciprocal of the
destination's direct buying rate; between two non-base currencies it is the
ratio of their direct buying rates; and whenever a required non-base leg is
missing the result is none — no fabricated default. -/
theorem c3_crossRate_amended (rates : CurrentRates) (fromCur toCur : Currency)
    (hne : fromCur ≠ toCur) :
    (toCur = baseCurrency →
      calculateSuggestedRate rates fromCur toCur = buyingOrNull rates fromCur) ∧
    (fromCur = baseCurrency →
      calculateSuggestedRate rates fromCur toCur =
        (buyingOrNull rates toCur).map (fun b => 1 / b)) ∧
    (fromCur ≠ baseCurrency → toCur ≠ baseCurrency →
      ∀ a b, buyingOrNull rates fromCur = some a → buyingOrNull rates toCur = some b →
        calculateSuggestedRate rates fromCur toCur = some (a / b)) ∧
    (fromCur ≠ baseCurrency → buyingOrNull rates fromCur = none →
      calculateSuggestedRate rates fromCur toCur = none) ∧
    (toCur ≠ baseCurrency → buyingOrNull rates toCur = none →
      calculateSuggestedRate rates fromCur toCur = none) := by
  refine ⟨?_, ?_, ?_, ?_, ?_⟩
  · intro hto
    subst hto
    have hfrom : fromCur ≠ baseCurrency := hne
    have h1 : legToTRY rates fromCur = buyingOrNull rates fromCur := by
      unfold legToTRY
      rw [if_neg hfrom]
    have h2 : legToTRY rates baseCurrency = some 1 := by
      unfold legToTRY
      rw [if_pos rfl]
    unfold calculateSuggestedRate
    rw [if_neg hne, h1, h2]
    cases hA : buyingOrNull rates fromCur with
    | none => rfl
    | some a =>
      have ha := buyingOrNull_ne_zero hA
      show (if a ≠ 0 ∧ (1 : ℚ) ≠ 0 then some (a / 1) else none) = some a
      rw [if_pos ⟨ha, one_ne_zero⟩, div_one]
  · intro hfrom
    subst hfrom
    have hto : toCur ≠ baseCurrency := Ne.symm hne
    have h1 : legToTRY rates baseCurrency = some 1 := by
      unfold legToTRY
      rw [if_pos rfl]
    have h2 : legToTRY rates toCur = buyingOrNull rates toCur := by
      unfold legToTRY
      rw [if_neg hto]
    unfold calculateSuggestedRate
    rw [if_neg hne, h1, h2]
    cases hB : buyingOrNull rates toCur with
    | none => rfl
    | some b =>
      have hb := buyingOrNull_ne_zero hB
      show (if (1 : ℚ) ≠ 0 ∧ b ≠ 0 then some (1 / b) else none) = some (1 / b)
      rw [if_pos ⟨one_ne_zero, hb⟩]
  · intro hfrom hto a b hA hB
    have ha := buyingOrNull_ne_zero hA
    have hb := buyingOrNull_ne_zero hB
    have h1 : legToTRY rates fromCur = buyingOrNull rates fromCur := by
      unfold legToTRY
      rw [if_neg hfrom]
    have h2 : legToTRY rates toCur = buyingOrNull rates toCur := by
      unfold legToTRY
      rw [if_neg hto]
    unfold calculateSuggestedRate
    rw [if_neg hne, h1, h2, hA, hB]
    show (if a ≠ 0 ∧ b ≠ 0 then some (a / b) else none) = some (a / b)
    rw [if_pos ⟨ha, hb⟩]
  · intro hfrom hA
    have h1 : legToTRY rates fromCur = buyingOrNull rates fromCur := by
      unfold legToTRY
      rw [if_neg hfrom]
    unfold calculateSuggestedRate
    rw [if_neg hne, h1, hA]
  · intro hto hB
    have h2 : legToTRY rates toCur = buyingOrNull rates toCur := by
      unfold legToTRY
      rw [if_neg hto]
    unfold calculateSuggestedRate
    rw [if_neg hne, h2, hB]
    cases legToTRY rates fromCur <;> rfl

/-- C3 witness (concrete scenario 5): with only a USD rate recorded and the
EUR leg missing, the USD→EUR cross rate is none, not a fabricated value. -/
theorem c3_crossRate_amended_witness :
    calculateSuggestedRate c3Rates USD EUR = none := by
  have h := c3_crossRate_amended c3Rates USD EUR (by decide)
  exact h.2.2.2.2 (by decide) (by simp [c3Rates, buyingOrNull, USD, EUR, List.lookup])

/-- C6: the code at the cited sites silently replaces a missing rate by 1
instead of raising a distinct recoverable error: with only a USD rate
recorded, `convertToUSD` treats the missing EUR leg as rate 1 and returns
100·1/30 = 10/3, and a blank payment-form exchange rate is submitted as 1. -/
theorem c6_missing_rate_silently_defaults :
    buyingOrNull c6Rates EUR = none ∧
    convertToUSD c6Rates 100 EUR = 10 / 3 ∧
    paymentExchangeRate none = 1 := by
  refine ⟨?_, ?_, rfl⟩
  · simp [c6Rates, buyingOrNull, EUR, USD, List.lookup]
  · simp [c6Rates, convertToUSD, buyingOr1, buyingOrNull, USD, EUR, baseCurrency, List.lookup]
    norm_num

/-- C7: `computeLineProfit` returns line_total = quantity × unit_price
(agreeing with the client-side `calculateItemTotal`), line_cost = quantity ×
cost_price, line_profit = line_total − line_cost exactly, and margin_pct =
line_profit / line_total × 100, with margin_pct = 0 when line_total = 0. -/
theorem c7_computeLineProfit_correct (q up cp : ℚ) :
    (computeLineProfit q up cp).line_total = calculateItemTotal q up ∧
    (computeLineProfit q up cp).line_total = q * up ∧
    (computeLineProfit q up cp).line_cost = q * cp ∧
    (computeLineProfit q up cp).line_profit =
      (computeLineProfit q up cp).line_total - (computeLineProfit q up cp).line_cost ∧
    ((computeLineProfit q up cp).line_total = 0 →
      (computeLineProfit q up cp).margin_pct = 0) ∧
    ((computeLineProfit q up cp).line_total ≠ 0 →
      (computeLineProfit q up cp).margin_pct =
        (computeLineProfit q up cp).line_profit /
          (computeLineProfit q up cp).line_total * 100) := by
  refine ⟨rfl, rfl, rfl, rfl, ?_, ?_⟩
  · intro h
    simp only [computeLineProfit] at h ⊢
    rw [if_pos h]
  · intro h
    simp only [computeLineProfit] at h ⊢
    rw [if_neg h]

/-- C7 witness (concrete scenario 4): quantity 3, unit price 10, cost 6 give
line_total 30, line_cost 18, line_profit 12, margin_pct 40. -/
theorem c7_computeLineProfit_witness :
    (computeLineProfit 3 10 6).line_total = 30 ∧
    (computeLineProfit 3 10 6).line_cost = 18 ∧
    (computeLineProfit 3 10 6).line_profit = 12 ∧
    (computeLineProfit 3 10 6).margin_pct = 40 := by
  have h := c7_computeLineProfit_correct 3 10 6
  have htot : (computeLineProfit 3 10 6).line_total = 30 := by
    rw [h.2.1]; norm_num
  have hcost : (computeLineProfit 3 10 6).line_cost = 18 := by
    rw [h.2.2.1]; norm_num
  have hprof : (computeLineProfit 3 10 6).line_profit = 12 := by
    rw [h.2.2.2.1, htot, hcost]; norm_num
  refine ⟨htot, hcost, hprof, ?_⟩
  rw [h.2.2.2.2.2 (by rw [htot]; norm_num), htot, hprof]
  norm_num

/-- C8: for distinct currencies whose legs both resolve, the two opposite
cross rates are exact reciprocals. -/
theorem c8_crossRate_reciprocal (rates : CurrentRates) (a b : Currency)
    (r r' : ℚ) (hne : a ≠ b)
    (h1 : calculateSuggestedRate rates a b = some r)
    (h2 : calculateSuggestedRate rates b a = some r') :
    r * r' = 1 := by
  obtain ⟨x, y, hA, hB, hx, hy, rfl⟩ := calculateSuggestedRate_cross hne h1
  obtain ⟨y₂, x₂, hB₂, hA₂, hy₂, hx₂, rfl⟩ :=
    calculateSuggestedRate_cross (Ne.symm hne) h2
  rw [hA] at hA₂
  rw [hB] at hB₂
  cases hA₂
  cases hB₂
  rw [div_mul_div_comm, mul_comm y x]
  exact div_self (mul_ne_zero hx hy)

/-- C8 witness: with USD buying 30 and EUR buying 15, USD→EUR is 2 and
EUR→USD is 1/2, whose product is 1. -/
theorem c8_crossRate_reciprocal_witness :
    calculateSuggestedRate c8Rates USD EUR = some 2 ∧
    calculateSuggestedRate c8Rates EUR USD = some (1 / 2) ∧
    (2 : ℚ) * (1 / 2) = 1 := by
  have e1 : calculateSuggestedRate c8Rates USD EUR = some 2 := by
    simp [c8Rates, calculateSuggestedRate, legToTRY, buyingOrNull, USD, EUR,
      baseCurrency, List.lookup]
    norm_num
  have e2 : calculateSuggestedRate c8Rates EUR USD = some (1 / 2) := by
    simp [c8Rates, calculateSuggestedRate, legToTRY, buyingOrNull, USD, EUR,
      baseCurrency, List.lookup]
    norm_num
  exact ⟨e1, e2, c8_crossRate_reciprocal c8Rates USD EUR 2 (1 / 2) (by decide) e1 e2⟩

theorem foldl_add_eq {α : Type} (f : α → ℚ) (l : List α) (init : ℚ) :
    l.foldl (fun sum p => sum + f p) init = init + (l.map f).sum := by
  induction l generalizing init with
  | nil => simp
  | cons x xs ih => simp [ih, add_assoc]

theorem totalIncoming_eq_sum (ps : List PaymentRec) :
    totalIncoming ps =
      ((ps.filter fun p => incomingTypes.contains p.payment_type).map
        PaymentRec.amount).sum := by
  unfold totalIncoming
  rw [foldl_add_eq PaymentRec.amount, zero_add]

theorem totalOutgoing_eq_sum (ps : List PaymentRec) :
    totalOutgoing ps =
      ((ps.filter fun p => outgoingTypes.contains p.payment_type).map
        PaymentRec.amount).sum := by
  unfold totalOutgoing
  rw [foldl_add_eq PaymentRec.amount, zero_add]

theorem totalBalance_eq_sum (accs : List AccountRec) :
    totalBalance accs = (accs.map AccountRec.balance).sum := by
  unfold totalBalance
  rw [foldl_add_eq AccountRec.balance, zero_add]

/-- C10: each aggregate total is the plain arithmetic sum of the raw
per-record amounts or balances, and re-labelling every record with an
arbitrary currency leaves each total unchanged — no currency conversion is
applied anywhere in the aggregation. -/
theorem c10_totals_are_bare_sums (ps : List PaymentRec) (accs : List AccountRec)
    (c : Currency) :
    totalIncoming ps =
      ((ps.filter fun p => incomingTypes.contains p.payment_type).map
        PaymentRec.amount).sum ∧
    totalOutgoing ps =
      ((ps.filter fun p => outgoingTypes.contains p.payment_type).map
        PaymentRec.amount).sum ∧
    totalBalance accs = (accs.map AccountRec.balance).sum ∧
    totalIncoming (ps.map (setPaymentCurrency c)) = totalIncoming ps ∧
    totalOutgoing (ps.map (setPaymentCurrency c)) = totalOutgoing ps ∧
    totalBalance (accs.map (setAccountCurrency c)) = totalBalance accs := by
  refine ⟨totalIncoming_eq_sum ps, totalOutgoing_eq_sum ps, totalBalance_eq_sum accs,
    ?_, ?_, ?_⟩
  · rw [totalIncoming_eq_sum, totalIncoming_eq_sum, List.filter_map, List.map_map]
    rfl
  · rw [totalOutgoing_eq_sum, totalOutgoing_eq_sum, List.filter_map, List.map_map]
    rfl
  · rw [totalBalance_eq_sum, totalBalance_eq_sum, List.map_map]
    rfl



/-- The stored Transfer record of a transfer attempt, none on failure. -/
def transferResult (rates : CurrentRates) (accounts : AccountMap)
    (req : TransferRequest) : Option Transfer :=
  match transfer rates accounts req with
  | .ok (t, _) => some t
  | .error _ => none

theorem transfer_ok_char {rates : CurrentRates} {accounts : AccountMap}
    {req : TransferRequest} {fromAcc toAcc : Account} {rate : ℚ}
    (hne : req.from_account_id ≠ req.to_account_id)
    (hpos : 0 < req.from_amount)
    (hfrom : accounts req.from_account_id = some fromAcc)
    (hto : accounts req.to_account_id = some toAcc)
    (hrate : resolveRate rates req.exchange_rate fromAcc.currency toAcc.currency = some rate) :
    transfer rates accounts req =
      Except.ok (⟨req.from_account_id, req.to_account_id, req.from_amount,
          toAmountOf req rate, rate⟩,
        fun k =>
          if k = req.from_account_id then
            some ⟨fromAcc.currency, fromAcc.balance - req.from_amount⟩
          else if k = req.to_account_id then
            some ⟨toAcc.currency, toAcc.balance + toAmountOf req rate⟩
          else accounts k) := by
  unfold transfer
  rw [if_neg hne, if_neg (not_le.mpr hpos), hfrom, hto]
  dsimp only
  rw [hrate]

theorem transfer_noRate_char {rates : CurrentRates} {accounts : AccountMap}
    {req : TransferRequest} {fromAcc toAcc : Account}
    (hne : req.from_account_id ≠ req.to_account_id)
    (hpos : 0 < req.from_amount)
    (hfrom : accounts req.from_account_id = some fromAcc)
    (hto : accounts req.to_account_id = some toAcc)
    (hrate : resolveRate rates req.exchange_rate fromAcc.currency toAcc.currency = none) :
    transfer rates accounts req = Except.error LedgerError.rateUnavailable := by
  unfold transfer
  rw [if_neg hne, if_neg (not_le.mpr hpos), hfrom, hto]
  dsimp only
  rw [hrate]

/-- C1: for every valid transfer (distinct existing accounts, positive
from_amount, resolvable rate) the engine succeeds, the source balance drops
by from_amount, the destination balance rises by the stored to_amount, and
no other account's entry changes. -/
theorem c1_transfer_moves_balances (rates : CurrentRates) (accounts : AccountMap)
    (req : TransferRequest) (fromAcc toAcc : Account) (rate : ℚ)
    (hne : req.from_account_id ≠ req.to_account_id)
    (hpos : 0 < req.from_amount)
    (hfrom : accounts req.from_account_id = some fromAcc)
    (hto : accounts req.to_account_id = some toAcc)
    (hrate : resolveRate rates req.exchange_rate fromAcc.currency toAcc.currency = some rate) :
    (∃ p, transfer rates accounts req = Except.ok p) ∧
    ∀ p, transfer rates accounts req = Except.ok p →
      p.1.from_amount = req.from_amount ∧
      p.2 req.from_account_id =
        some ⟨fromAcc.currency, fromAcc.balance - req.from_amount⟩ ∧
      p.2 req.to_account_id =
        some ⟨toAcc.currency, toAcc.balance + p.1.to_amount⟩ ∧
      ∀ k, k ≠ req.from_account_id → k ≠ req.to_account_id → p.2 k = accounts k := by
  have hchar := transfer_ok_char hne hpos hfrom hto hrate
  refine ⟨⟨_, hchar⟩, ?_⟩
  intro p hok
  rw [hchar] at hok
  injection hok with h
  subst h
  refine ⟨rfl, ?_, ?_, ?_⟩
  · show (if req.from_account_id = req.from_account_id then
        some ⟨fromAcc.currency, fromAcc.balance - req.from_amount⟩
      else if req.from_account_id = req.to_account_id then
        some ⟨toAcc.currency, toAcc.balance + toAmountOf req rate⟩
      else accounts req.from_account_id) = _
    rw [if_pos rfl]
  · show (if req.to_account_id = req.from_account_id then
        some ⟨fromAcc.currency, fromAcc.balance - req.from_amount⟩
      else if req.to_account_id = req.to_account_id then
        some ⟨toAcc.currency, toAcc.balance + toAmountOf req rate⟩
      else accounts req.to_account_id) = _
    rw [if_neg (Ne.symm hne), if_pos rfl]
  · intro k hk1 hk2
    show (if k = req.from_account_id then
        some ⟨fromAcc.currency, fromAcc.balance - req.from_amount⟩
      else if k = req.to_account_id then
        some ⟨toAcc.currency, toAcc.balance + toAmountOf req rate⟩
      else accounts k) = accounts k
    rw [if_neg hk1, if_neg hk2]

/-- C5: the engine resolves the exchange rate by explicit rate first, then
rate 1 for equal currencies, then the store's cross rate; and when the
currencies differ and none of these resolves, the transfer fails with
rateUnavailable instead of assuming a 1:1 rate. -/
theorem c5_rate_resolution_order (rates : CurrentRates) (accounts : AccountMap)
    (req : TransferRequest) (fromAcc toAcc : Account)
    (hne : req.from_account_id ≠ req.to_account_id)
    (hpos : 0 < req.from_amount)
    (hfrom : accounts req.from_account_id = some fromAcc)
    (hto : accounts req.to_account_id = some toAcc) :
    (∀ r, req.exchange_rate = some r →
      (transferResult rates accounts req).map Transfer.exchange_rate = some r) ∧
    (req.exchange_rate = none → fromAcc.currency = toAcc.currency →
      (transferResult rates accounts req).map Transfer.exchange_rate = some 1) ∧
    (req.exchange_rate = none → fromAcc.currency ≠ toAcc.currency →
      ∀ r, calculateSuggestedRate rates fromAcc.currency toAcc.currency = some r →
        (transferResult rates accounts req).map Transfer.exchange_rate = some r) ∧
    (req.exchange_rate = none → fromAcc.currency ≠ toAcc.currency →
      calculateSuggestedRate rates fromAcc.currency toAcc.currency = none →
      transfer rates accounts req = Except.error LedgerError.rateUnavailable) := by
  refine ⟨?_, ?_, ?_, ?_⟩
  · intro r hr
    have hrate : resolveRate rates req.exchange_rate fromAcc.currency toAcc.currency
        = some r := by
      rw [hr]
      rfl
    unfold transferResult
    rw [transfer_ok_char hne hpos hfrom hto hrate]
    rfl
  · intro hr hcur
    have hrate : resolveRate rates req.exchange_rate fromAcc.currency toAcc.currency
        = some 1 := by
      rw [hr]
      show (if fromAcc.currency = toAcc.currency then some 1
        else calculateSuggestedRate rates fromAcc.currency toAcc.currency) = some 1
      rw [if_pos hcur]
    unfold transferResult
    rw [transfer_ok_char hne hpos hfrom hto hrate]
    rfl
  · intro hr hcur r hcross
    have hrate : resolveRate rates req.exchange_rate fromAcc.currency toAcc.currency
        = some r := by
      rw [hr]
      show (if fromAcc.currency = toAcc.currency then some 1
        else calculateSuggestedRate rates fromAcc.currency toAcc.currency) = some r
      rw [if_neg hcur, hcross]
    unfold transferResult
    rw [transfer_ok_char hne hpos hfrom hto hrate]
    rfl
  · intro hr hcur hcross
    have hrate : resolveRate rates req.exchange_rate fromAcc.currency toAcc.currency
        = none := by
      rw [hr]
      show (if fromAcc.currency = toAcc.currency then some 1
        else calculateSuggestedRate rates fromAcc.currency toAcc.currency) = none
      rw [if_neg hcur, hcross]
    exact transfer_noRate_char hne hpos hfrom hto hrate

theorem transfer_ok_inv {rates : CurrentRates} {accounts : AccountMap}
    {req : TransferRequest} {p : Transfer × AccountMap}
    (hok : transfer rates accounts req = Except.ok p) :
    ∃ fromAcc toAcc rate,
      accounts req.from_account_id = some fromAcc ∧
      accounts req.to_account_id = some toAcc ∧
      resolveRate rates req.exchange_rate fromAcc.currency toAcc.currency = some rate ∧
      p.1 = ⟨req.from_account_id, req.to_account_id, req.from_amount,
        toAmountOf req rate, rate⟩ := by
  unfold transfer at hok
  by_cases h1 : req.from_account_id = req.to_account_id
  · rw [if_pos h1] at hok
    exact Except.noConfusion hok
  rw [if_neg h1] at hok
  by_cases h2 : req.from_amount ≤ 0
  · rw [if_pos h2] at hok
    exact Except.noConfusion hok
  rw [if_neg h2] at hok
  cases hfa : accounts req.from_account_id with
  | none =>
    rw [hfa] at hok
    exact Except.noConfusion hok
  | some fromAcc =>
    rw [hfa] at hok
    cases hta : accounts req.to_account_id with
    | none =>
      rw [hta] at hok
      exact Except.noConfusion hok
    | some toAcc =>
      rw [hta] at hok
      dsimp only at hok
      cases hrate : resolveRate rates req.exchange_rate fromAcc.currency toAcc.currency with
      | none =>
        rw [hrate] at hok
        exact Except.noConfusion hok
      | some rate =>
        rw [hrate] at hok
        injection hok with h
        subst h
        exact ⟨fromAcc, toAcc, rate, rfl, rfl, hrate, rfl⟩

def c1Accounts : AccountMap := fun k =>
  if k = 1 then some ⟨USD, 100⟩ else if k = 2 then some ⟨TRY, 0⟩ else none

def c1Rates : CurrentRates := [(USD, ⟨30, 31⟩)]

def c1Req : TransferRequest := ⟨1, 2, 100, none, none⟩

/-- C1 witness (concrete scenario 2): account 1 holds USD 100, account 2
holds TRY 0, the USD buying rate is 30; the transfer of 100 with no explicit
to_amount leaves balance 0 on account 1, balance 3000 on account 2, and any
third account untouched. -/
theorem c1_transfer_moves_balances_witness :
    applyTransfer c1Rates c1Accounts c1Req 1 = some ⟨USD, 0⟩ ∧
    applyTransfer c1Rates c1Accounts c1Req 2 = some ⟨TRY, 3000⟩ ∧
    applyTransfer c1Rates c1Accounts c1Req 3 = none := by
  have h := (c1_transfer_moves_balances c1Rates c1Accounts c1Req
    ⟨USD, 100⟩ ⟨TRY, 0⟩ (30 / 1) (by decide) (by norm_num [c1Req]) rfl rfl rfl).2
    (⟨1, 2, 100, 100 * (30 / 1), 30 / 1⟩, applyTransfer c1Rates c1Accounts c1Req) rfl
  refine ⟨(h.2.1).trans ?_, (h.2.2.1).trans ?_, (h.2.2.2 3 (by decide) (by decide)).trans rfl⟩
  · norm_num [c1Req]
  · norm_num [c1Req]

def c5Accounts : AccountMap := fun k =>
  if k = 1 then some ⟨USD, 100⟩ else if k = 2 then some ⟨EUR, 5⟩ else none

def c5Req : TransferRequest := ⟨1, 2, 10, none, none⟩

def c5Accounts2 : AccountMap := fun k =>
  if k = 1 then some ⟨TRY, 100⟩ else if k = 2 then some ⟨TRY, 0⟩ else none

def c5Req2 : TransferRequest := ⟨1, 2, 10, none, some 7⟩

/-- C5 witness: a USD→EUR transfer with no explicit rate and an empty rate
table fails with rateUnavailable, and an explicit rate 7 is stored as-is. -/
theorem c5_rate_resolution_order_witness :
    transfer [] c5Accounts c5Req = Except.error LedgerError.rateUnavailable ∧
    (transferResult [] c5Accounts2 c5Req2).map Transfer.exchange_rate = some 7 := by
  constructor
  · exact (c5_rate_resolution_order [] c5Accounts c5Req ⟨USD, 100⟩ ⟨EUR, 5⟩
      (by decide) (by norm_num [c5Req]) rfl rfl).2.2.2 rfl (by decide) rfl
  · exact (c5_rate_resolution_order [] c5Accounts2 c5Req2 ⟨TRY, 100⟩ ⟨TRY, 0⟩
      (by decide) (by norm_num [c5Req2]) rfl rfl).1 7 rfl

def c2Accounts : AccountMap := fun k =>
  if k = 1 then some ⟨USD, 100⟩ else if k = 2 then some ⟨USD, 50⟩ else none

def c2Req : TransferRequest := ⟨1, 2, 10, none, some 2⟩

/-- C2 counterexample: a transfer between two accounts that share the
currency USD, carrying an explicit exchange rate of 2 and no explicit
to_amount, is accepted with stored exchange_rate 2 ≠ 1 and to_amount
20 ≠ from_amount 10 — explicit rates take precedence over the equal-currency
rule, so the claim's unconditional same-currency clause fails. -/
theorem c2_counterexample :
    (c2Accounts 1).map Account.currency = some USD ∧
    (c2Accounts 2).map Account.currency = some USD ∧
    transferResult [] c2Accounts c2Req = some ⟨1, 2, 10, 10 * 2, 2⟩ ∧
    (2 : ℚ) ≠ 1 ∧ (10 * 2 : ℚ) ≠ 10 := by
  exact ⟨rfl, rfl, rfl, by norm_num, by norm_num⟩

/-- C2 (amended): for transfers the engine accepts, when the two account
currencies are equal and no explicit exchange_rate is supplied, the stored
rate is 1 and, when no explicit to_amount is supplied either, to_amount =
from_amount; when the currencies differ and to_amount is not supplied,
to_amount = from_amount × stored exchange_rate.  The client-side to_amount
effect copies from_amount across equal currencies and multiplies by the rate
across differing ones. -/
theorem c2_to_amount_amended (rates : CurrentRates) (accounts : AccountMap)
    (req : TransferRequest) (fromAcc toAcc : Account)
    (hfrom : accounts req.from_account_id = some fromAcc)
    (hto : accounts req.to_account_id = some toAcc) :
    (fromAcc.currency = toAcc.currency → req.exchange_rate = none →
      ∀ t, transferResult rates accounts req = some t →
        t.exchange_rate = 1 ∧ (req.to_amount = none → t.to_amount = t.from_amount)) ∧
    (fromAcc.currency ≠ toAcc.currency → req.to_amount = none →
      ∀ t, transferResult rates accounts req = some t →
        t.to_amount = t.from_amount * t.exchange_rate) ∧
    (∀ c amt r, effectToAmount c c amt r = amt) ∧
    (∀ c c2, c ≠ c2 → ∀ amt r, effectToAmount c c2 amt r = amt * r) := by
  refine ⟨?_, ?_, ?_, ?_⟩
  · intro hcur hrx t h
    unfold transferResult at h
    split at h
    · rename_i t0 s0 heq
      injection h with h2
      subst h2
      obtain ⟨fa, ta, rate, hfa, hta, hrate, hp1⟩ := transfer_ok_inv heq
      have ht0 : t0 = (⟨req.from_account_id, req.to_account_id, req.from_amount,
          toAmountOf req rate, rate⟩ : Transfer) := hp1
      rw [hfrom] at hfa
      injection hfa with h3
      subst h3
      rw [hto] at hta
      injection hta with h4
      subst h4
      rw [hrx] at hrate
      dsimp only [resolveRate] at hrate
      rw [if_pos hcur] at hrate
      injection hrate with h5
      subst h5
      constructor
      · rw [ht0]
      · intro hta2
        rw [ht0]
        show toAmountOf req 1 = req.from_amount
        unfold toAmountOf
        rw [hta2, mul_one]
    · exact Option.noConfusion h
  · intro hcur hta2 t h
    unfold transferResult at h
    split at h
    · rename_i t0 s0 heq
      injection h with h2
      subst h2
      obtain ⟨fa, ta, rate, hfa, htaq, hrate, hp1⟩ := transfer_ok_inv heq
      have ht0 : t0 = (⟨req.from_account_id, req.to_account_id, req.from_amount,
          toAmountOf req rate, rate⟩ : Transfer) := hp1
      rw [ht0]
      show toAmountOf req rate = req.from_amount * rate
      unfold toAmountOf
      rw [hta2]
    · exact Option.noConfusion h
  · intro c amt r
    unfold effectToAmount
    rw [if_neg (by simp)]
  · intro c c2 hne amt r
    unfold effectToAmount
    rw [if_pos hne]

def c2wAccounts : AccountMap := fun k =>
  if k = 1 then some ⟨TRY, 100⟩ else if k = 2 then some ⟨TRY, 0⟩ else none

def c2wReq : TransferRequest := ⟨1, 2, 10, none, none⟩

/-- C2 witness: a same-currency transfer with neither an explicit rate nor an
explicit to_amount stores rate 1 and to_amount equal to from_amount. -/
theorem c2_to_amount_amended_witness :
    transferResult [] c2wAccounts c2wReq = some ⟨1, 2, 10, 10 * 1, 1⟩ ∧
    (⟨1, 2, 10, 10 * 1, 1⟩ : Transfer).exchange_rate = 1 ∧
    (⟨1, 2, 10, 10 * 1, 1⟩ : Transfer).to_amount =
      (⟨1, 2, 10, 10 * 1, 1⟩ : Transfer).from_amount ∧
    (10 * 1 : ℚ) = 10 := by
  have h := (c2_to_amount_amended [] c2wAccounts c2wReq ⟨TRY, 100⟩ ⟨TRY, 0⟩ rfl rfl).1
    rfl rfl ⟨1, 2, 10, 10 * 1, 1⟩ rfl
  exact ⟨rfl, h.1, h.2 rfl, by norm_num⟩

theorem incoming_outgoing_partition (t : PaymentType) :
    incomingTypes.contains t = true ↔ ¬ outgoingTypes.contains t = true := by
  cases t <;> decide

/-- C4: every payment the engine accepts has a positive amount and mutates
exactly the referenced account, by +amount exactly for the incoming-class
types and by −amount exactly for the outgoing-class types (the two class
lists partition the payment types). -/
theorem c4_payment_direction (accounts : AccountMap) (req : PaymentRequest)
    (acc : Account) (p : Payment × AccountMap)
    (hacc : accounts req.account_id = some acc)
    (hok : createPayment accounts req = Except.ok p) :
    p.1.amount = req.amount ∧
    0 < p.1.amount ∧
    (∀ k, k ≠ req.account_id → p.2 k = accounts k) ∧
    (incomingTypes.contains req.payment_type = true →
      p.2 req.account_id = some ⟨acc.currency, acc.balance + req.amount⟩) ∧
    (outgoingTypes.contains req.payment_type = true →
      p.2 req.account_id = some ⟨acc.currency, acc.balance - req.amount⟩) ∧
    (incomingTypes.contains req.payment_type = true ↔
      ¬ outgoingTypes.contains req.payment_type = true) := by
  unfold createPayment at hok
  split at hok
  · exact Except.noConfusion hok
  · rename_i hamt
    split at hok
    · exact Except.noConfusion hok
    · rename_i acc0 hacc0
      split at hok
      · exact Except.noConfusion hok
      · injection hok with h
        subst h
        rw [hacc] at hacc0
        injection hacc0 with h2
        subst h2
        refine ⟨rfl, not_le.mp hamt, ?_, ?_, ?_, incoming_outgoing_partition req.payment_type⟩
        · intro k hk
          show (if k = req.account_id then
              some ⟨acc.currency,
                acc.balance +
                  (if incomingTypes.contains req.payment_type then req.amount
                   else -req.amount)⟩
            else accounts k) = accounts k
          rw [if_neg hk]
        · intro hI
          show (if req.account_id = req.account_id then
              some ⟨acc.currency,
                acc.balance +
                  (if incomingTypes.contains req.payment_type then req.amount
                   else -req.amount)⟩
            else accounts req.account_id) = _
          rw [if_pos rfl, hI, if_pos rfl]
        · intro hO
          have hI : incomingTypes.contains req.payment_type = false := by
            cases hb : incomingTypes.contains req.payment_type
            · rfl
            · exact absurd hO ((incoming_outgoing_partition req.payment_type).mp hb)
          show (if req.account_id = req.account_id then
              some ⟨acc.currency,
                acc.balance +
                  (if incomingTypes.contains req.payment_type then req.amount
                   else -req.amount)⟩
            else accounts req.account_id) = _
          rw [if_pos rfl, hI, if_neg (by decide), ← sub_eq_add_neg]

/-- The accounts table after a payment attempt, unchanged on failure. -/
def applyPayment (accounts : AccountMap) (req : PaymentRequest) : AccountMap :=
  match createPayment accounts req with
  | .ok (_, accounts2) => accounts2
  | .error _ => accounts

def c4Accounts : AccountMap := fun k => if k = 1 then some ⟨TRY, 1000⟩ else none

def c4Req : PaymentRequest := ⟨.incoming, 500, TRY, 1⟩

/-- C4 witness (concrete scenario 1): an incoming cash payment of 500 TRY on
an account holding 1000 TRY leaves balance 1500 and touches no other
account. -/
theorem c4_payment_direction_witness :
    applyPayment c4Accounts c4Req 1 = some ⟨TRY, 1500⟩ ∧
    applyPayment c4Accounts c4Req 2 = none ∧
    (0 : ℚ) < 500 := by
  have h := c4_payment_direction c4Accounts c4Req ⟨TRY, 1000⟩
    (⟨.incoming, 500, TRY, 1⟩, applyPayment c4Accounts c4Req) rfl rfl
  refine ⟨(h.2.2.2.1 rfl).trans ?_, (h.2.2.1 2 (by decide)).trans rfl, h.2.1⟩
  norm_num [c4Req]

/-- C9: a transfer whose source and destination account coincide is blocked
client-side (no request is sent) and rejected by the engine with a
validation error, leaving every account balance unchanged. -/
theorem c9_same_account_rejected (d : TransferFormData) (rates : CurrentRates)
    (accounts : AccountMap) (req : TransferRequest)
    (hd : d.from_account_id = d.to_account_id)
    (hreq : req.from_account_id = req.to_account_id) :
    handleTransferSubmit d = none ∧
    transfer rates accounts req = Except.error LedgerError.validationError ∧
    applyTransfer rates accounts req = accounts := by
  have ht2 : transfer rates accounts req = Except.error LedgerError.validationError := by
    unfold transfer
    rw [if_pos hreq]
  refine ⟨?_, ht2, ?_⟩
  · unfold handleTransferSubmit
    cases hf : d.from_account_id with
    | none => rfl
    | some f =>
      cases ht : d.to_account_id with
      | none => rfl
      | some t =>
        rw [hf, ht] at hd
        injection hd with h
        subst h
        dsimp only
        rw [if_pos rfl]
  · unfold applyTransfer
    rw [ht2]

def c9Accounts : AccountMap := fun k => if k = 1 then some ⟨TRY, 1000⟩ else none

def c9Form : TransferFormData := ⟨some 1, some 1, 50, none, none⟩

def c9Req : TransferRequest := ⟨1, 1, 50, none, none⟩

/-- C9 witness (concrete scenario 3): transfer(A, A, 50) is blocked in the
form and rejected by the engine, and the accounts table is unchanged. -/
theorem c9_same_account_rejected_witness :
    handleTransferSubmit c9Form = none ∧
    transfer [] c9Accounts c9Req = Except.error LedgerError.validationError ∧
    applyTransfer [] c9Accounts c9Req = c9Accounts :=
  c9_same_account_rejected c9Form [] c9Accounts c9Req rfl rfl

end NoxErp
